import Mathlib

/-!
Verification development for the snapback tiered snapshot tool.

The definitions below are a shallow embedding of the Python sources:

* utils.py       — snapshot_to_hours, sort_snapshots_by_age,
                   is_standard_snapshot, is_safe_workspace_path,
                   is_dangerous_targetbase, validate_workspace_path
* snapshot.py    — SnapshotManager: init_snapshots, create_hard_link_copy,
                   rotate_hourly, rotate_daily, rotate_weekly, rotate_monthly
* recovery.py    — RecoveryManager: tag, delete_path, delete_tag

Paths are modelled as their pathlib parts (an absolute flag plus a list
of components, with empty and "." components dropped, as pathlib does).
Strings are scanned through their character lists so that all definitions
reduce inside the kernel.  The snapshot store is modelled at two
granularities: a slot-level state (four tiers, each a map from slot index
to an optional directory content) for the rotation engine, and a
path-level filesystem (the list of existing absolute paths) for the
recovery operations, whose safety questions are about path resolution.
-/

set_option autoImplicit false

namespace Snapback

/-- Split a character list on the slash character, accumulating the current
component in reverse. Mirrors how pathlib cuts a POSIX path string. -/
def splitSlashAux : List Char → List Char → List (List Char)
  | [], acc => [acc.reverse]
  | c :: cs, acc =>
      if c = '/' then acc.reverse :: splitSlashAux cs []
      else splitSlashAux cs (c :: acc)

/-- Value of a digit string, as Python int() computes it on the digits
captured by the rotation regexes. -/
def digitsVal (ds : List Char) : Nat :=
  ds.foldl (fun n c => n * 10 + (c.toNat - 48)) 0

/-- Match the unanchored regex (tier)-(\d+) of utils.snapshot_to_hours at the
start of a name: the name must begin with the tier word, a dash, and at
least one digit; the captured number is the maximal leading digit run.
Anything may follow the digits, because the pattern is not anchored. -/
def tierMatch (tier : String) (name : List Char) : Option Nat :=
  let p := (tier ++ "-").data
  if p.isPrefixOf name then
    let ds := (name.drop p.length).takeWhile Char.isDigit
    if ds.isEmpty then none else some (digitsVal ds)
  else none

/-- Embedding of utils.snapshot_to_hours: convert a snapshot name to an
hours-ago integer for sorting; names not matching the (unanchored)
tier-number pattern get the sentinel 999999. -/
def snapshot_to_hours (name : String) : Nat :=
  match tierMatch "hour" name.data with
  | some n => n
  | none =>
    match tierMatch "day" name.data with
    | some n => (n + 1) * 24
    | none =>
      match tierMatch "week" name.data with
      | some n => (n + 1) * 24 * 7
      | none =>
        match tierMatch "month" name.data with
        | some n => (n + 1) * 24 * 30
        | none => 999999

/-- Insert a name into an already sorted list, before the first element of
key not smaller than its own.  Inserting from the right, this yields the
stable sort that the Python builtin sorted guarantees. -/
def insertByAge (x : String) : List String → List String
  | [] => [x]
  | y :: ys =>
      if snapshot_to_hours x ≤ snapshot_to_hours y then x :: y :: ys
      else y :: insertByAge x ys

/-- Embedding of utils.sort_snapshots_by_age: stable sort by the hours-ago
key, newest first (the sorted builtin is a stable key sort, embedded here
as a stable insertion sort). -/
def sort_snapshots_by_age : List String → List String
  | [] => []
  | x :: xs => insertByAge x (sort_snapshots_by_age xs)

/-- Embedding of utils.is_standard_snapshot: the anchored regex
(hour|day|week|month)-\d+ with both ends anchored, so the whole
name must be a tier word, a dash, and one or more digits. -/
def is_standard_snapshot (name : String) : Bool :=
  ["hour", "day", "week", "month"].any fun t =>
    let p := (t ++ "-").data
    p.isPrefixOf name.data &&
      (let rest := name.data.drop p.length
       !rest.isEmpty && rest.all Char.isDigit)

/-! Slot-level model of the rotation engine (snapshot.py).

A directory content is a map from a relative file path to the content of
the file stored there; a tier is a map from slot index to an optional
directory (present or absent slot).  The safe_rmtree workspace check done
by rotation is modelled separately with the path-level model below; at the
slot level a delete is simply the slot becoming absent. -/

/-- Directory content: relative file path to file content. -/
def Dir := List String → Option String

/-- Content of a directory with no files. -/
def emptyDir : Dir := fun _ => none

/-- Embedding of SnapshotManager.create_hard_link_copy at content level:
the walk over src links every file of src into dst (removing a pre-existing
destination file first), and leaves files of dst that src does not have.
A hard link shares content, so the copy has the content of the source. -/
def create_hard_link_copy (src dst : Dir) : Dir :=
  fun p =>
    match src p with
    | some c => some c
    | none => dst p

/-- State of the snapshot store at slot granularity: the four tiers. -/
structure Store where
  hour : Nat → Option Dir
  day : Nat → Option Dir
  week : Nat → Option Dir
  month : Nat → Option Dir

/-- Write one slot of a tier. -/
def setSlot (f : Nat → Option Dir) (i : Nat) (v : Option Dir) : Nat → Option Dir :=
  fun j => if j = i then v else f j

/-- Embedding of the loop body: if slot i is present, rename it to slot
i + 1 (the destination was vacated by the previous iteration); a missing
source slot is a no-op. -/
def renameSlot (f : Nat → Option Dir) (i : Nat) : Nat → Option Dir :=
  match f i with
  | some d => setSlot (setSlot f (i + 1) (some d)) i none
  | none => f

/-- Embedding of the shift loops: for i from the given index down to 0,
rename slot i to slot i + 1 when present. -/
def rotateFrom (f : Nat → Option Dir) : Nat → (Nat → Option Dir)
  | 0 => renameSlot f 0
  | i + 1 => rotateFrom (renameSlot f (i + 1)) i

/-- Embedding of SnapshotManager.rotate_hourly (non-dry-run): delete
hour-23 if present, then rename hour-i to hour-(i+1) for i from 22 down
to 0. -/
def rotate_hourly (s : Store) : Store :=
  let h := if (s.hour 23).isSome then setSlot s.hour 23 none else s.hour
  { s with hour := rotateFrom h 22 }

/-- First step of rotate_daily: if day-7 exists and week-0 does not,
rename day-7 to week-0; if day-7 exists and week-0 does too, delete
day-7. -/
def dailyStep1 (s : Store) : Store :=
  if (s.day 7).isSome then
    if (s.week 0).isSome then { s with day := setSlot s.day 7 none }
    else { s with week := setSlot s.week 0 (s.day 7), day := setSlot s.day 7 none }
  else s

/-- Embedding of SnapshotManager.rotate_daily (non-dry-run): promote or
drop day-7, shift day-6..day-0 up, then rename hour-23 to day-0 when
present. -/
def rotate_daily (s : Store) : Store :=
  let s1 := dailyStep1 s
  let s2 := { s1 with day := rotateFrom s1.day 6 }
  if (s2.hour 23).isSome then
    { s2 with day := setSlot s2.day 0 (s2.hour 23), hour := setSlot s2.hour 23 none }
  else s2

/-- First step of rotate_weekly: if week-4 exists and month-0 does not,
rename week-4 to month-0; if week-4 exists and month-0 does too, delete
week-4. -/
def weeklyStep1 (s : Store) : Store :=
  if (s.week 4).isSome then
    if (s.month 0).isSome then { s with week := setSlot s.week 4 none }
    else { s with month := setSlot s.month 0 (s.week 4), week := setSlot s.week 4 none }
  else s

/-- Embedding of SnapshotManager.rotate_weekly (non-dry-run): promote or
drop week-4, shift week-3..week-0 up, then, when day-7 is present, remove
any week-0 and hard-link-copy day-7 into a fresh week-0, leaving day-7 in
place. -/
def rotate_weekly (s : Store) : Store :=
  let s1 := weeklyStep1 s
  let s2 := { s1 with week := rotateFrom s1.week 3 }
  match s2.day 7 with
  | some d =>
      let s3 :=
        if (s2.week 0).isSome then { s2 with week := setSlot s2.week 0 none } else s2
      { s3 with week := setSlot s3.week 0 (some (create_hard_link_copy d emptyDir)) }
  | none => s2

/-- Embedding of SnapshotManager.rotate_monthly (non-dry-run): delete
month-12 if present, shift month-11..month-0 up, then rename week-4 to
month-0 when present. -/
def rotate_monthly (s : Store) : Store :=
  let s1 := if (s.month 12).isSome then { s with month := setSlot s.month 12 none } else s
  let s2 := { s1 with month := rotateFrom s1.month 11 }
  match s2.week 4 with
  | some d => { s2 with month := setSlot s2.month 0 (some d), week := setSlot s2.week 4 none }
  | none => s2

/-- Cross-tier promotions and evictions a rotation call performs;
within-tier shifts are not promotions or evictions. -/
inductive RotOp where
  | evict
  | promote
deriving DecidableEq, Repr

/-- Operations of rotate_hourly: the conditional deletion of hour-23. -/
def rotate_hourly_ops (s : Store) : List RotOp :=
  if (s.hour 23).isSome then [RotOp.evict] else []

/-- Operations of rotate_daily, in call order: promote or evict day-7,
then promote hour-23 to day-0 (the first two steps do not touch the hour
tier, so the hour-23 test reads the initial state). -/
def rotate_daily_ops (s : Store) : List RotOp :=
  (if (s.day 7).isSome then
     if (s.week 0).isSome then [RotOp.evict] else [RotOp.promote]
   else []) ++
  (if (s.hour 23).isSome then [RotOp.promote] else [])

/-- Operations of rotate_weekly, in call order: promote or evict week-4,
then, when day-7 is present after the shift, delete any surviving week-0
and hard-link-promote day-7 into week-0.  The intermediate state after
the shift is recomputed exactly as rotate_weekly computes it. -/
def rotate_weekly_ops (s : Store) : List RotOp :=
  let s1 := weeklyStep1 s
  let s2 := { s1 with week := rotateFrom s1.week 3 }
  (if (s.week 4).isSome then
     if (s.month 0).isSome then [RotOp.evict] else [RotOp.promote]
   else []) ++
  (if (s2.day 7).isSome then
     (if (s2.week 0).isSome then [RotOp.evict] else []) ++ [RotOp.promote]
   else [])

/-- Operations of rotate_monthly, in call order: evict month-12 when
present, then promote week-4 to month-0 when present. -/
def rotate_monthly_ops (s : Store) : List RotOp :=
  (if (s.month 12).isSome then [RotOp.evict] else []) ++
  (if (s.week 4).isSome then [RotOp.promote] else [])

/-- Embedding of SnapshotManager.init_snapshots: hour-0..hour-23,
day-0..day-7, week-0..week-4 and month-0..month-12 all exist and are
empty. -/
def initStore : Store where
  hour := fun i => if i < 24 then some emptyDir else none
  day := fun i => if i < 8 then some emptyDir else none
  week := fun i => if i < 5 then some emptyDir else none
  month := fun i => if i < 13 then some emptyDir else none

/-- Directory holding one file a.txt with content v1, used as a concrete
slot content. -/
def demoDir : Dir := fun p => if p = ["a.txt"] then some "v1" else none

/-- Initialized store whose hour-0 additionally holds the demo file. -/
def demoStore : Store :=
  { initStore with
    hour := fun i => if i = 0 then some demoDir else if i < 24 then some emptyDir else none }

/-- Initialized store whose day-7 additionally holds the demo file. -/
def demoStoreW : Store :=
  { initStore with
    day := fun i => if i = 7 then some demoDir else if i < 8 then some emptyDir else none }

/-! Path-level model (pathlib paths, resolution, and the recovery
operations of recovery.py over a filesystem of existing paths). -/

/-- A pathlib PurePosixPath: whether it is absolute, and its components
with empty and single-dot components dropped, as pathlib drops them;
double-dot components are kept, as pathlib keeps them. -/
structure PyPath where
  absolute : Bool
  comps : List String
deriving DecidableEq, Repr

/-- Components that pathlib would report for a path string. -/
def parseComps (s : String) : List String :=
  ((splitSlashAux s.data []).filter (fun t => !(t == []) && !(t == ['.']))).map
    (fun t => String.mk t)

/-- Whether a path string is absolute. -/
def startsSlash (s : String) : Bool :=
  match s.data with
  | '/' :: _ => true
  | _ => false

/-- Parse a path string the way pathlib Path does. -/
def parsePath (s : String) : PyPath :=
  { absolute := startsSlash s, comps := parseComps s }

/-- Join components with slashes. -/
def joinSlash : List String → String
  | [] => ""
  | [a] => a
  | a :: b :: rest => a ++ "/" ++ joinSlash (b :: rest)

/-- Rendering of a path as str() renders it: leading slash when absolute,
a single dot for the empty relative path. -/
def PyPath.toStr (p : PyPath) : String :=
  if p.absolute then "/" ++ joinSlash p.comps
  else if p.comps.isEmpty then "." else joinSlash p.comps

/-- Last component, as the pathlib name property. -/
def PyPath.name (p : PyPath) : String :=
  p.comps.getLast?.getD ""

/-- Result of the pathlib absolute() method: prepend the current working
directory to a relative path, without resolving symlinks or dots. -/
def PyPath.absoluteIn (cwd : List String) (p : PyPath) : PyPath :=
  if p.absolute then p else { absolute := true, comps := cwd ++ p.comps }

/-- Embedding of PurePath.relative_to: succeeds exactly when the other
path (same anchor) is a lexical prefix, and returns the remaining
components; no dot-dot resolution happens here. -/
def relativeTo (t s : PyPath) : Option (List String) :=
  if (t.absolute == s.absolute) && s.comps.isPrefixOf t.comps then
    some (t.comps.drop s.comps.length)
  else none

/-- Embedding of utils.is_safe_workspace_path over an abstract resolution
function (Path.resolve follows symlinks and can fail; a failure is the
none case).  Both paths are resolved and the workspace must be a lexical
prefix of the target; any resolution failure yields false, and the
function is total, so it never raises. -/
def is_safe_workspace_path (resolve : PyPath → Option PyPath)
    (path workspace_root : PyPath) : Bool :=
  match resolve path, resolve workspace_root with
  | some rp, some rw => (relativeTo rp rw).isSome
  | _, _ => false

/-- Embedding of utils.validate_workspace_path.  In the source the
detailed traversal message is raised inside a try block whose except
clause catches ValueError and replaces it, so the error that actually
propagates for a dot-dot component is the short generic one modelled
here; the boundary-check message is raised outside the try and keeps its
full text. -/
def validate_workspace_path (resolve : PyPath → Option PyPath)
    (path workspace_root : PyPath) (operation : String) : Except String Unit :=
  if path.comps.contains ".." then
    Except.error ("Invalid path for " ++ operation ++ ": " ++ path.toStr)
  else if !(is_safe_workspace_path resolve path workspace_root) then
    Except.error
      ("Path is outside workspace for " ++ operation ++ ": " ++ path.toStr ++
        ". In local mode, all operations must stay within: " ++ workspace_root.toStr)
  else Except.ok ()

/-- Filesystem environment for is_dangerous_targetbase: expansion of user
and environment variables, the working directory, existence, resolution
(none models a raised error), and the resolved home directory. -/
structure FsEnv where
  expand : String → PyPath
  cwd : List String
  pathExists : PyPath → Bool
  resolve : PyPath → Option PyPath
  home : PyPath

/-- Deny-list of system directories from utils.is_dangerous_targetbase. -/
def systemDirs : List String :=
  ["/", "/home", "/usr", "/etc", "/var", "/tmp", "/boot", "/sys", "/proc", "/dev",
   "/bin", "/sbin", "/lib", "/lib64", "/opt", "/root", "/run", "/srv", "/mnt", "/media"]

/-- Resolution step of is_dangerous_targetbase: resolve an existing
expanded path (which may fail), and take the unresolved absolute form of
a non-existing one. -/
def resolvedTargetbase (env : FsEnv) (path : String) : Option PyPath :=
  let expanded := env.expand path
  if env.pathExists expanded then env.resolve expanded
  else some (expanded.absoluteIn env.cwd)

/-- Embedding of utils.is_dangerous_targetbase; quote characters inside
the message texts are elided. -/
def is_dangerous_targetbase (env : FsEnv) (path : String) (is_local : Bool) :
    Bool × String :=
  let expanded := env.expand path
  match resolvedTargetbase env path with
  | none => (true, "Path cannot be resolved: " ++ path)
  | some resolved =>
    if systemDirs.contains resolved.toStr ||
        systemDirs.contains (expanded.absoluteIn env.cwd).toStr then
      (true, "Cannot use system directory: " ++ path)
    else if resolved = env.home then
      (true, "Cannot use home directory root. Use a subdirectory like " ++
        env.home.toStr ++ "/.Snapshots")
    else if is_local && (parsePath path).comps.contains ".." then
      (true, "Parent directory references (..) not allowed in local mode. Use ./.snapshots instead")
    else if is_local && (parsePath path).absolute then
      (true, "Absolute paths not recommended in local mode. Use relative path like ./.snapshots")
    else (false, "")

/-! Filesystem of existing paths, for the recovery operations.  An entry
is the component list of an existing absolute path (directories and
files); a path exists when it is a prefix of some entry.  The kernel
resolves dot-dot components the way the operating system does on a
symlink-free tree: by popping the previous component. -/

/-- Existing absolute paths of the filesystem. -/
abbrev FS := List (List String)

/-- Resolve dot-dot components lexically, as the operating system walks
them on a symlink-free tree; at the root a dot-dot stays at the root. -/
def normComps (comps : List String) : List String :=
  comps.foldl (fun acc c => if c = ".." then acc.dropLast else acc ++ [c]) []

/-- Whether a path exists: it is an entry or an ancestor of one. -/
def fsExists (fs : FS) (p : List String) : Bool :=
  fs.any (fun f => p.isPrefixOf f)

/-- Recursive removal of a path: drop every entry at or below it. -/
def rmtreeFS (fs : FS) (p : List String) : FS :=
  fs.filter (fun f => !(p.isPrefixOf f))

/-- Configuration of the recovery manager: the expanded source
directories and the components of the absolute target base. -/
structure RConfig where
  dirs : List PyPath
  base : List String

/-- Errors of the recovery operations: the Python FileNotFoundError,
FileExistsError and ValueError cases. -/
inductive RecErr where
  | notFound (msg : String)
  | alreadyExists (msg : String)
  | validation (msg : String)
deriving DecidableEq, Repr

/-- Loop of RecoveryManager.delete_path over the configured source
directories: the first source directory that is a lexical prefix of the
target and whose mirrored path inside hour-0 exists gets that mirrored
path deleted with shutil.rmtree (no workspace validation); other sources
only produce warnings. -/
def delete_path_go (base : List String) (fs : FS) (target : PyPath) :
    List PyPath → FS
  | [] => fs
  | src :: rest =>
      match relativeTo target src with
      | none => delete_path_go base fs target rest
      | some rel =>
          let hp := normComps (base ++ ["hour-0", src.name] ++ rel)
          if fsExists fs hp then rmtreeFS fs hp
          else delete_path_go base fs target rest

/-- Embedding of RecoveryManager.delete_path (non-dry-run): fails when
hour-0 is absent, otherwise deletes the mirrored path of the first
matching source directory; finding nothing is only a warning. -/
def delete_path (cfg : RConfig) (fs : FS) (path : PyPath) : Except RecErr FS :=
  if !(fsExists fs (normComps (cfg.base ++ ["hour-0"]))) then
    Except.error (RecErr.notFound "hour-0 snapshot does not exist")
  else Except.ok (delete_path_go cfg.base fs path cfg.dirs)

/-- Test used by delete_tag and list_tagged_snapshots in recovery.py: a
plain startswith check on the four tier prefixes, not the anchored
tier-index regex. -/
def startsWithTier (name : String) : Bool :=
  ("hour-".data.isPrefixOf name.data) || ("day-".data.isPrefixOf name.data) ||
    ("week-".data.isPrefixOf name.data) || ("month-".data.isPrefixOf name.data)

/-- Embedding of RecoveryManager.delete_tag (non-dry-run): not-found when
the directory is absent, a validation error when the name starts with a
tier prefix, otherwise shutil.rmtree of the tag directory (no workspace
validation). -/
def delete_tag (cfg : RConfig) (fs : FS) (tag_name : String) : Except RecErr FS :=
  let tp := normComps (cfg.base ++ parseComps tag_name)
  if !(fsExists fs tp) then
    Except.error (RecErr.notFound ("Tag does not exist: " ++ tag_name))
  else if startsWithTier tag_name then
    Except.error (RecErr.validation
      ("Cannot delete standard snapshot: " ++ tag_name ++ ". Use rotation commands instead."))
  else Except.ok (rmtreeFS fs tp)

/-- Hard-link copy at filesystem level: the destination directory is
created, and every path under the source gains a mirrored path under the
destination with the same content identity. -/
def hardLinkCopyFS (fs : FS) (sp tp : List String) : FS :=
  fs ++ [tp] ++
    fs.filterMap (fun f =>
      if sp.isPrefixOf f then some (tp ++ f.drop sp.length) else none)

/-- Embedding of RecoveryManager.tag (non-dry-run): not-found when the
source snapshot is absent, already-exists when the tag directory exists,
otherwise a hard-link copy at the tag path; the tag name itself is never
validated against any pattern. -/
def tag (cfg : RConfig) (fs : FS) (snapshot_name tag_name : String) :
    Except RecErr FS :=
  let sp := normComps (cfg.base ++ parseComps snapshot_name)
  let tp := normComps (cfg.base ++ parseComps tag_name)
  if !(fsExists fs sp) then
    Except.error (RecErr.notFound ("Snapshot does not exist: " ++ snapshot_name))
  else if fsExists fs tp then
    Except.error (RecErr.alreadyExists ("Tag already exists: " ++ tag_name))
  else Except.ok (hardLinkCopyFS fs sp tp)

/-! Concrete fixtures used by counterexamples and witnesses. -/

/-- Local-mode configuration with workspace root /ws, one source
directory /ws/proj and target base /ws/.snapshots. -/
def cfgC1 : RConfig where
  dirs := [⟨true, ["ws", "proj"]⟩]
  base := ["ws", ".snapshots"]

/-- Filesystem with a populated hour-0 and a victim file outside the
workspace root /ws. -/
def fsC1 : FS :=
  [["ws", ".snapshots", "hour-0"],
   ["ws", ".snapshots", "hour-0", "proj", "f.txt"],
   ["secrets", "s.txt"]]

/-- Input path under the source directory whose dot-dot components climb
out of the workspace: /ws/proj/../../../../secrets resolves to /secrets. -/
def escapePath : PyPath := ⟨true, ["ws", "proj", "..", "..", "..", "..", "secrets"]⟩

/-- Configuration over base directory /base with no source directories. -/
def cfgT : RConfig where
  dirs := []
  base := ["base"]

/-- Base directory holding a directory named hour-old and one named
mytag. -/
def fsTag : FS :=
  [["base"], ["base", "hour-old"], ["base", "hour-old", "f.txt"], ["base", "mytag"]]

/-- Base directory holding the snapshot hour-1 with one file. -/
def fsTagSrc : FS :=
  [["base"], ["base", "hour-1"], ["base", "hour-1", "proj", "a.txt"]]

/-- Resolution function on which every lookup fails. -/
def resolveFail : PyPath → Option PyPath := fun _ => none

/-- Environment on which /tmp exists but is a symlink whose resolution is
/private/tmp: resolving changes the path while the unresolved absolute
form stays on the deny-list. -/
def envTmpLink : FsEnv where
  expand := fun s => parsePath s
  cwd := ["w"]
  pathExists := fun _ => true
  resolve := fun p => if p = ⟨true, ["tmp"]⟩ then some ⟨true, ["private", "tmp"]⟩ else some p
  home := ⟨true, ["home", "user"]⟩

/-- Benign environment: nothing exists yet, resolution is the identity,
the working directory is /ws/proj and home is /home/user. -/
def envPlain : FsEnv where
  expand := fun s => parsePath s
  cwd := ["ws", "proj"]
  pathExists := fun _ => false
  resolve := some
  home := ⟨true, ["home", "user"]⟩

/-! Closed forms of the rotation loops. -/

theorem setSlot_apply (f : Nat → Option Dir) (i : Nat) (v : Option Dir) (j : Nat) :
    setSlot f i v j = if j = i then v else f j := rfl

theorem renameSlot_ne (f : Nat → Option Dir) (i k : Nat) (h1 : k ≠ i) (h2 : k ≠ i + 1) :
    renameSlot f i k = f k := by
  unfold renameSlot
  cases f i <;> simp [setSlot, h1, h2]

theorem renameSlot_self (f : Nat → Option Dir) (i : Nat) (h : f i = none) :
    renameSlot f i i = none := by
  unfold renameSlot
  rw [h]
  exact h

theorem renameSlot_succ (f : Nat → Option Dir) (i : Nat) :
    renameSlot f i (i + 1) = if (f i).isSome then f i else f (i + 1) := by
  unfold renameSlot
  cases h : f i <;> simp [setSlot, h]

theorem rotateFrom_apply (i : Nat) :
    ∀ (f : Nat → Option Dir), f (i + 1) = none →
      ∀ j, rotateFrom f i j =
        if j = 0 then none else if j ≤ i + 1 then f (j - 1) else f j := by
  induction i with
  | zero =>
      intro f hf j
      show renameSlot f 0 j = _
      match j with
      | 0 =>
          simp only [if_pos rfl]
          unfold renameSlot
          cases h : f 0 <;> simp [setSlot, h]
      | 1 =>
          have := renameSlot_succ f 0
          simp only [this]
          cases h : f 0 <;> simp [h, hf]
      | (j + 2) =>
          rw [renameSlot_ne f 0 (j + 2) (by omega) (by omega)]
          simp only [if_neg (by omega : ¬ j + 2 = 0), if_neg (by omega : ¬ j + 2 ≤ 0 + 1)]
  | succ i ih =>
      intro f hf j
      have hgself : renameSlot f (i + 1) (i + 1) = none := by
        unfold renameSlot
        cases h : f (i + 1) <;> simp [setSlot, h]
      show rotateFrom (renameSlot f (i + 1)) i j = _
      rw [ih (renameSlot f (i + 1)) (by
        have : renameSlot f (i + 1) (i + 1) = none := hgself
        exact this) j]
      by_cases hj0 : j = 0
      · simp [hj0]
      · simp only [if_neg hj0]
        by_cases hj1 : j ≤ i + 1
        · rw [if_pos hj1, if_pos (by omega : j ≤ i + 1 + 1)]
          rw [renameSlot_ne f (i + 1) (j - 1) (by omega) (by omega)]
        · by_cases hj2 : j = i + 2
          · subst hj2
            rw [if_neg hj1, if_pos (by omega : i + 2 ≤ i + 1 + 1)]
            have : i + 2 - 1 = i + 1 := by omega
            rw [this, renameSlot_succ]
            cases h : f (i + 1) <;> simp [h, hf]
          · rw [if_neg hj1, if_neg (by omega : ¬ j ≤ i + 1 + 1)]
            rw [renameSlot_ne f (i + 1) j (by omega) (by omega)]

theorem rotate_hourly_hour (s : Store) (j : Nat) :
    (rotate_hourly s).hour j =
      if j = 0 then none else if j ≤ 23 then s.hour (j - 1) else s.hour j := by
  have hbase : ∀ k, k ≠ 23 →
      (if (s.hour 23).isSome then setSlot s.hour 23 none else s.hour) k = s.hour k := by
    intro k hk
    cases h : (s.hour 23).isSome <;> simp [setSlot, hk]
  have h23 : (if (s.hour 23).isSome then setSlot s.hour 23 none else s.hour) 23 = none := by
    cases h : s.hour 23 <;> simp [setSlot, h]
  show rotateFrom (if (s.hour 23).isSome then setSlot s.hour 23 none else s.hour) 22 j = _
  rw [rotateFrom_apply 22 _ h23 j]
  by_cases hj0 : j = 0
  · simp [hj0]
  · simp only [if_neg hj0]
    by_cases hj : j ≤ 23
    · rw [if_pos (by omega : j ≤ 22 + 1), if_pos hj, hbase (j - 1) (by omega)]
    · rw [if_neg (by omega : ¬ j ≤ 22 + 1), if_neg hj, hbase j (by omega)]

theorem dailyStep1_day7 (s : Store) : (dailyStep1 s).day 7 = none := by
  unfold dailyStep1
  split
  · split <;> simp [setSlot]
  · simp_all

theorem dailyStep1_day_ne (s : Store) (k : Nat) (hk : k ≠ 7) :
    (dailyStep1 s).day k = s.day k := by
  unfold dailyStep1
  split
  · split <;> simp [setSlot, hk]
  · rfl

theorem dailyStep1_hour (s : Store) : (dailyStep1 s).hour = s.hour := by
  unfold dailyStep1
  split
  · split <;> rfl
  · rfl

theorem rotate_daily_day (s : Store) (j : Nat) :
    (rotate_daily s).day j =
      if j = 0 then s.hour 23 else if j ≤ 7 then s.day (j - 1) else s.day j := by
  have hd7 := dailyStep1_day7 s
  have hshift := rotateFrom_apply 6 (dailyStep1 s).day hd7
  unfold rotate_daily
  dsimp only
  rw [congrFun (dailyStep1_hour s) 23]
  split
  · dsimp only
    rw [setSlot_apply]
    by_cases hj0 : j = 0
    · simp [hj0, congrFun (dailyStep1_hour s) 23]
    · simp only [if_neg hj0]
      rw [hshift j, if_neg hj0]
      by_cases hj : j ≤ 7
      · rw [if_pos (by omega : j ≤ 6 + 1), dailyStep1_day_ne s (j - 1) (by omega)]
        simp [hj]
      · rw [if_neg (by omega : ¬ j ≤ 6 + 1), dailyStep1_day_ne s j (by omega)]
        simp [hj]
  · dsimp only
    rename_i hnone
    have h23 : s.hour 23 = none := by
      cases h : s.hour 23
      · rfl
      · rw [h] at hnone
        simp at hnone
    rw [hshift j]
    by_cases hj0 : j = 0
    · simp [hj0, h23]
    · simp only [if_neg hj0]
      by_cases hj : j ≤ 7
      · rw [if_pos (by omega : j ≤ 6 + 1), dailyStep1_day_ne s (j - 1) (by omega)]
        simp [hj]
      · rw [if_neg (by omega : ¬ j ≤ 6 + 1), dailyStep1_day_ne s j (by omega)]
        simp [hj]

theorem weeklyStep1_week4 (s : Store) : (weeklyStep1 s).week 4 = none := by
  unfold weeklyStep1
  split
  · split <;> simp [setSlot]
  · simp_all

theorem weeklyStep1_week_ne (s : Store) (k : Nat) (hk : k ≠ 4) :
    (weeklyStep1 s).week k = s.week k := by
  unfold weeklyStep1
  split
  · split <;> simp [setSlot, hk]
  · rfl

theorem weeklyStep1_day (s : Store) : (weeklyStep1 s).day = s.day := by
  unfold weeklyStep1
  split
  · split <;> rfl
  · rfl

theorem rotate_weekly_day (s : Store) : (rotate_weekly s).day = s.day := by
  unfold rotate_weekly
  dsimp only
  split
  · split <;> exact weeklyStep1_day s
  · exact weeklyStep1_day s

theorem rotate_weekly_week0 (s : Store) :
    (rotate_weekly s).week 0 =
      Option.map (fun d => create_hard_link_copy d emptyDir) (s.day 7) := by
  have hw4 := weeklyStep1_week4 s
  have hshift := rotateFrom_apply 3 (weeklyStep1 s).week hw4
  have hday : (weeklyStep1 s).day 7 = s.day 7 := congrFun (weeklyStep1_day s) 7
  unfold rotate_weekly
  dsimp only
  split
  · rename_i d hd
    rw [hday] at hd
    rw [hd]
    dsimp only
    split <;> simp [setSlot]
  · rename_i hd
    rw [hday] at hd
    rw [hd]
    dsimp only
    rw [hshift 0]
    simp

theorem rotate_weekly_week_succ (s : Store) (j : Nat) (hj : j ≠ 0) :
    (rotate_weekly s).week j =
      if j ≤ 4 then s.week (j - 1) else s.week j := by
  have hw4 := weeklyStep1_week4 s
  have hshift := rotateFrom_apply 3 (weeklyStep1 s).week hw4
  have hrest :
      rotateFrom (weeklyStep1 s).week 3 j =
        if j ≤ 4 then s.week (j - 1) else s.week j := by
    rw [hshift j, if_neg hj]
    by_cases h4 : j ≤ 4
    · rw [if_pos (by omega : j ≤ 3 + 1), weeklyStep1_week_ne s (j - 1) (by omega)]
      simp [h4]
    · rw [if_neg (by omega : ¬ j ≤ 3 + 1), weeklyStep1_week_ne s j (by omega)]
      simp [h4]
  unfold rotate_weekly
  dsimp only
  split
  · dsimp only
    rw [setSlot_apply, if_neg hj]
    split
    · dsimp only
      rw [setSlot_apply, if_neg hj]
      exact hrest
    · exact hrest
  · exact hrest

theorem rotate_monthly_week4 (s : Store) : (rotate_monthly s).week 4 = none := by
  unfold rotate_monthly
  dsimp only
  have hweek :
      (if (s.month 12).isSome then { s with month := setSlot s.month 12 none } else s).week =
        s.week := by
    split <;> rfl
  split
  · dsimp only
    simp [setSlot]
  · rename_i hd
    rw [hweek] at hd ⊢
    exact hd

theorem rotate_monthly_month (s : Store) (j : Nat) :
    (rotate_monthly s).month j =
      if j = 0 then s.week 4 else if j ≤ 12 then s.month (j - 1) else s.month j := by
  have hm12 :
      (if (s.month 12).isSome then { s with month := setSlot s.month 12 none } else s).month 12 =
        none := by
    cases h : s.month 12 <;> simp [setSlot, h]
  have hmne : ∀ k, k ≠ 12 →
      (if (s.month 12).isSome then { s with month := setSlot s.month 12 none } else s).month k =
        s.month k := by
    intro k hk
    split <;> simp [setSlot, hk]
  have hweek :
      (if (s.month 12).isSome then { s with month := setSlot s.month 12 none } else s).week =
        s.week := by
    split <;> rfl
  have hshift := rotateFrom_apply 11 _ hm12
  unfold rotate_monthly
  dsimp only
  rw [hweek]
  split
  · rename_i d hd
    dsimp only
    rw [setSlot_apply]
    by_cases hj0 : j = 0
    · simp [hj0, hd]
    · simp only [if_neg hj0]
      rw [hshift j, if_neg hj0]
      by_cases hj : j ≤ 12
      · rw [if_pos (by omega : j ≤ 11 + 1), hmne (j - 1) (by omega)]
        simp [hj]
      · rw [if_neg (by omega : ¬ j ≤ 11 + 1), hmne j (by omega)]
        simp [hj]
  · rename_i hd
    dsimp only
    rw [hshift j]
    by_cases hj0 : j = 0
    · simp [hj0, hd]
    · simp only [if_neg hj0]
      by_cases hj : j ≤ 12
      · rw [if_pos (by omega : j ≤ 11 + 1), hmne (j - 1) (by omega)]
        simp [hj]
      · rw [if_neg (by omega : ¬ j ≤ 11 + 1), hmne j (by omega)]
        simp [hj]

theorem rotate_weekly_ops_eq (s : Store) :
    rotate_weekly_ops s =
      (if (s.week 4).isSome then
         if (s.month 0).isSome then [RotOp.evict] else [RotOp.promote]
       else []) ++
      (if (s.day 7).isSome then [RotOp.promote] else []) := by
  unfold rotate_weekly_ops
  dsimp only
  have h0 : rotateFrom (weeklyStep1 s).week 3 0 = none := by
    rw [rotateFrom_apply 3 _ (weeklyStep1_week4 s) 0]
    simp
  rw [h0, congrFun (weeklyStep1_day s) 7]
  simp

theorem rotate_hourly_ops_bounds (s : Store) :
    (rotate_hourly_ops s).length ≤ 1 ∧ (rotate_hourly_ops s).count RotOp.evict ≤ 1 := by
  cases h : (s.hour 23).isSome <;> simp [rotate_hourly_ops, h]

theorem rotate_daily_ops_bounds (s : Store) :
    (rotate_daily_ops s).length ≤ 2 ∧ (rotate_daily_ops s).count RotOp.evict ≤ 1 := by
  cases hd : (s.day 7).isSome <;> cases hw : (s.week 0).isSome <;>
    cases hh : (s.hour 23).isSome <;>
    simp [rotate_daily_ops, hd, hw, hh, List.count_cons, List.count_nil]

theorem rotate_weekly_ops_bounds (s : Store) :
    (rotate_weekly_ops s).length ≤ 2 ∧ (rotate_weekly_ops s).count RotOp.evict ≤ 1 := by
  rw [rotate_weekly_ops_eq s]
  cases hw : (s.week 4).isSome <;> cases hm : (s.month 0).isSome <;>
    cases hd : (s.day 7).isSome <;>
    simp [hw, hm, hd, List.count_cons, List.count_nil]

theorem rotate_monthly_ops_bounds (s : Store) :
    (rotate_monthly_ops s).length ≤ 2 ∧ (rotate_monthly_ops s).count RotOp.evict ≤ 1 := by
  cases hm : (s.month 12).isSome <;> cases hw : (s.week 4).isSome <;>
    simp [rotate_monthly_ops, hm, hw, List.count_cons, List.count_nil]

/-- C2: the claimed ring invariant fails on the code.  Starting from the
freshly initialized store, already the first RotateHourly leaves slot
hour-0 absent (it is renamed to hour-1 and nothing recreates it), so not
every slot index 0..23 exists afterwards; and one RotateDaily performs
two promotion/eviction events (it evicts day-7, because week-0 exists,
and it promotes hour-23 to day-0), not at most one. -/
theorem ring_invariant_counterexample :
    (rotate_hourly initStore).hour 0 = none ∧
      rotate_daily_ops initStore = [RotOp.evict, RotOp.promote] :=
  ⟨rfl, rfl⟩

/-- C2 (amended): for every tier T in (hour, day, week, month) with
retention N in (23, 7, 4, 12), each rotation call shifts the tier up by
one: slot i + 1 afterwards holds exactly what slot i held before, for
every i below N, so every slot present at index below N stays present one
index higher; slot 0 afterwards holds exactly the promoted input of the
tier (nothing for hour, hour-23 for day, a hard-link copy of day-7 for
week, week-4 for month), so slot 0 need not exist after a call; and each
call performs at most two promotion/eviction events, of which at most one
is an eviction. -/
theorem rotation_ring_shift_and_ops (s : Store) :
    ((rotate_hourly s).hour 0 = none ∧
     (∀ i, i < 23 → (rotate_hourly s).hour (i + 1) = s.hour i) ∧
     (rotate_hourly_ops s).length ≤ 1 ∧
     (rotate_hourly_ops s).count RotOp.evict ≤ 1) ∧
    ((rotate_daily s).day 0 = s.hour 23 ∧
     (∀ i, i < 7 → (rotate_daily s).day (i + 1) = s.day i) ∧
     (rotate_daily_ops s).length ≤ 2 ∧
     (rotate_daily_ops s).count RotOp.evict ≤ 1) ∧
    ((rotate_weekly s).week 0 =
        Option.map (fun d => create_hard_link_copy d emptyDir) (s.day 7) ∧
     (∀ i, i < 4 → (rotate_weekly s).week (i + 1) = s.week i) ∧
     (rotate_weekly_ops s).length ≤ 2 ∧
     (rotate_weekly_ops s).count RotOp.evict ≤ 1) ∧
    ((rotate_monthly s).month 0 = s.week 4 ∧
     (∀ i, i < 12 → (rotate_monthly s).month (i + 1) = s.month i) ∧
     (rotate_monthly_ops s).length ≤ 2 ∧
     (rotate_monthly_ops s).count RotOp.evict ≤ 1) := by
  refine ⟨⟨?_, ?_, (rotate_hourly_ops_bounds s).1, (rotate_hourly_ops_bounds s).2⟩,
    ⟨?_, ?_, (rotate_daily_ops_bounds s).1, (rotate_daily_ops_bounds s).2⟩,
    ⟨rotate_weekly_week0 s, ?_, (rotate_weekly_ops_bounds s).1, (rotate_weekly_ops_bounds s).2⟩,
    ⟨?_, ?_, (rotate_monthly_ops_bounds s).1, (rotate_monthly_ops_bounds s).2⟩⟩
  · rw [rotate_hourly_hour s 0]
    simp
  · intro i hi
    rw [rotate_hourly_hour s (i + 1)]
    simp only [if_neg (by omega : ¬ i + 1 = 0), if_pos (by omega : i + 1 ≤ 23)]
    congr 1
  · rw [rotate_daily_day s 0]
    simp
  · intro i hi
    rw [rotate_daily_day s (i + 1)]
    simp only [if_neg (by omega : ¬ i + 1 = 0), if_pos (by omega : i + 1 ≤ 7)]
    congr 1
  · intro i hi
    rw [rotate_weekly_week_succ s (i + 1) (by omega)]
    simp only [if_pos (by omega : i + 1 ≤ 4)]
    congr 1
  · rw [rotate_monthly_month s 0]
    simp
  · intro i hi
    rw [rotate_monthly_month s (i + 1)]
    simp only [if_neg (by omega : ¬ i + 1 = 0), if_pos (by omega : i + 1 ≤ 12)]
    congr 1

/-- Witness for the amended C2 theorem at the initialized store. -/
theorem rotation_ring_shift_and_ops_witness :
    (rotate_hourly initStore).hour 1 = initStore.hour 0 ∧
      (rotate_daily initStore).day 0 = initStore.hour 23 :=
  ⟨(rotation_ring_shift_and_ops initStore).1.2.1 0 (by decide),
    (rotation_ring_shift_and_ops initStore).2.1.1⟩

/-- C3: RotateHourly deletes hour-23, renames hour-i to hour-(i+1) for i
from 22 down to 0 (missing slots are a no-op), and leaves hour-0 absent;
consequently every file with its content in hour-0 before the call is in
hour-1 with the same content afterwards, and hour-0 no longer contains
it. -/
theorem rotate_hourly_spec (s : Store) :
    (rotate_hourly s).hour 0 = none ∧
    (∀ i, i < 23 → (rotate_hourly s).hour (i + 1) = s.hour i) ∧
    (∀ i, 23 < i → (rotate_hourly s).hour i = s.hour i) ∧
    (∀ d F C, s.hour 0 = some d → d F = some C →
      ∃ d2, (rotate_hourly s).hour 1 = some d2 ∧ d2 F = some C) := by
  refine ⟨?_, ?_, ?_, ?_⟩
  · rw [rotate_hourly_hour s 0]
    simp
  · intro i hi
    rw [rotate_hourly_hour s (i + 1)]
    simp only [if_neg (by omega : ¬ i + 1 = 0), if_pos (by omega : i + 1 ≤ 23)]
    congr 1
  · intro i hi
    rw [rotate_hourly_hour s i]
    rw [if_neg (by omega : ¬ i = 0), if_neg (by omega : ¬ i ≤ 23)]
  · intro d F C h0 hF
    refine ⟨d, ?_, hF⟩
    rw [rotate_hourly_hour s 1]
    simpa using h0

/-- Witness for the C3 theorem: the store whose hour-0 holds a.txt with
content v1; after one rotation hour-1 holds that file with that content. -/
theorem rotate_hourly_spec_witness :
    ∃ d2, (rotate_hourly demoStore).hour 1 = some d2 ∧ d2 ["a.txt"] = some "v1" :=
  (rotate_hourly_spec demoStore).2.2.2 demoDir ["a.txt"] "v1" rfl rfl

/-- C4: RotateWeekly leaves day-7 in place and makes week-0 a hard-link
copy with the same content, any prior week-0 having been removed; by
contrast RotateMonthly promotes week-4 by rename, so week-4 is absent
after RotateMonthly. -/
theorem promotion_asymmetry (s : Store) (d : Dir) :
    (s.day 7 = some d →
      (rotate_weekly s).day 7 = some d ∧
      (rotate_weekly s).week 0 = some (create_hard_link_copy d emptyDir) ∧
      (∀ F, create_hard_link_copy d emptyDir F = d F)) ∧
    (rotate_monthly s).week 4 = none := by
  constructor
  · intro h
    refine ⟨?_, ?_, ?_⟩
    · rw [congrFun (rotate_weekly_day s) 7]
      exact h
    · rw [rotate_weekly_week0 s, h]
      rfl
    · intro F
      unfold create_hard_link_copy emptyDir
      cases hdf : d F <;> simp [hdf]
  · exact rotate_monthly_week4 s

/-- Witness for the C4 theorem at the store whose day-7 holds the demo
file. -/
theorem promotion_asymmetry_witness :
    (rotate_weekly demoStoreW).day 7 = some demoDir ∧
      (rotate_monthly demoStoreW).week 4 = none :=
  ⟨((promotion_asymmetry demoStoreW demoDir).1 rfl).1,
    (promotion_asymmetry demoStoreW demoDir).2⟩

/-- C5: the claim fails on the code.  The directory hour-old exists at the
base and its name does not match the anchored tier-index pattern, yet
DeleteTag refuses it with a validation error, because the code tests the
name with startswith on the four tier prefixes, not with the pattern. -/
theorem delete_tag_pattern_counterexample :
    is_standard_snapshot "hour-old" = false ∧
      delete_tag cfgT fsTag "hour-old" =
        Except.error (RecErr.validation
          "Cannot delete standard snapshot: hour-old. Use rotation commands instead.") :=
  ⟨by decide, rfl⟩

/-- C5 (amended): for every tagName whose directory exists at the base,
DeleteTag raises a validation error if and only if tagName starts with
one of the prefixes hour-, day-, week- or month- (a superset of the
tier-index pattern, so a name like hour-old is not deletable either);
and DeleteTag raises NotFound when no directory named tagName exists. -/
theorem delete_tag_spec (cfg : RConfig) (fs : FS) (tg : String) :
    (fsExists fs (normComps (cfg.base ++ parseComps tg)) = true →
      ((∃ m, delete_tag cfg fs tg = Except.error (RecErr.validation m)) ↔
        startsWithTier tg = true)) ∧
    (fsExists fs (normComps (cfg.base ++ parseComps tg)) = false →
      ∃ m, delete_tag cfg fs tg = Except.error (RecErr.notFound m)) := by
  constructor
  · intro h
    cases hst : startsWithTier tg <;> simp [delete_tag, h, hst]
  · intro h
    simp [delete_tag, h]

/-- Witness for the amended C5 theorem: hour-old exists at the base, it
starts with a tier prefix, and DeleteTag indeed answers with a validation
error. -/
theorem delete_tag_spec_witness :
    ∃ m, delete_tag cfgT fsTag "hour-old" = Except.error (RecErr.validation m) :=
  ((delete_tag_spec cfgT fsTag "hour-old").1 (by decide)).mpr (by decide)

/-- C6: the claim fails on the code.  The conversion regex is not
anchored, so the tag name hour-5x, which is not a tier-index name, maps
to 5 instead of the sentinel and sorts before the standard slot hour-7;
moreover the sentinel 999999 is not larger than the value of every
tier-index name: month-1388 maps to 1000080, so that standard-pattern
name sorts after a tag. -/
theorem snapshot_to_hours_counterexample :
    is_standard_snapshot "hour-5x" = false ∧
      snapshot_to_hours "hour-5x" = 5 ∧
      sort_snapshots_by_age ["hour-7", "hour-5x"] = ["hour-5x", "hour-7"] ∧
      is_standard_snapshot "month-1388" = true ∧
      snapshot_to_hours "month-1388" = 1000080 ∧
      sort_snapshots_by_age ["month-1388", "sometag"] = ["sometag", "month-1388"] :=
  ⟨by decide, by decide, by decide, by decide, by decide, by decide⟩

/-- C6 (amended): the age conversion maps hour-N to N, day-N to (N+1)*24,
week-N to (N+1)*24*7 and month-N to (N+1)*24*30 for indices within the
retention ranges, and maps every name that does not begin with a
tier-dash-digits prefix to the sentinel 999999, which is strictly larger
than every within-retention slot value, so such names sort after the
standard slots; in particular the documented example sort yields hour-0
first, hour-5 second, day-0 third.  Names merely beginning with a
tier-dash-digits prefix are keyed by their leading number, and
over-retention indices can exceed the sentinel. -/
theorem snapshot_to_hours_spec :
    (∀ n, n < 24 → snapshot_to_hours ("hour-" ++ Nat.repr n) = n) ∧
    (∀ n, n < 8 → snapshot_to_hours ("day-" ++ Nat.repr n) = (n + 1) * 24) ∧
    (∀ n, n < 5 → snapshot_to_hours ("week-" ++ Nat.repr n) = (n + 1) * 24 * 7) ∧
    (∀ n, n < 13 → snapshot_to_hours ("month-" ++ Nat.repr n) = (n + 1) * 24 * 30) ∧
    (∀ name : String,
      tierMatch "hour" name.data = none → tierMatch "day" name.data = none →
      tierMatch "week" name.data = none → tierMatch "month" name.data = none →
      snapshot_to_hours name = 999999) ∧
    (∀ n, n < 24 → snapshot_to_hours ("hour-" ++ Nat.repr n) < 999999) ∧
    (∀ n, n < 8 → snapshot_to_hours ("day-" ++ Nat.repr n) < 999999) ∧
    (∀ n, n < 5 → snapshot_to_hours ("week-" ++ Nat.repr n) < 999999) ∧
    (∀ n, n < 13 → snapshot_to_hours ("month-" ++ Nat.repr n) < 999999) ∧
    sort_snapshots_by_age ["month-1", "hour-5", "day-2", "week-1", "hour-0", "day-0"] =
      ["hour-0", "hour-5", "day-0", "day-2", "week-1", "month-1"] := by
  refine ⟨by decide, by decide, by decide, by decide, ?_, by decide, by decide,
    by decide, by decide, by decide⟩
  intro name h1 h2 h3 h4
  simp [snapshot_to_hours, h1, h2, h3, h4]

/-- Witness for the amended C6 theorem: hour-5 maps to 5 and the tag name
mytag maps to the sentinel. -/
theorem snapshot_to_hours_spec_witness :
    snapshot_to_hours ("hour-" ++ Nat.repr 5) = 5 ∧ snapshot_to_hours "mytag" = 999999 :=
  ⟨snapshot_to_hours_spec.1 5 (by decide),
    snapshot_to_hours_spec.2.2.2.2.1 "mytag" (by decide) (by decide) (by decide) (by decide)⟩

theorem str_append_ne_empty (s t : String) (h : s.data ≠ []) : s ++ t ≠ "" := by
  intro hc
  apply h
  have h2 := congrArg String.data hc
  rw [String.data_append] at h2
  exact (List.append_eq_nil.mp h2).1

/-- C7: the error message of the traversal branch is missing the
workspace root.  The source builds a detailed message for a dot-dot
component, but raises it inside a try block whose except clause catches
ValueError and re-raises only the short generic message, which names the
operation and the path but not the workspace root, contradicting the
message requirement of the claim (the raise-iff part of the claim does
hold: the call errors on the dot-dot path regardless of existence). -/
theorem validate_workspace_path_message_bug :
    validate_workspace_path resolveFail ⟨false, ["..", "outside"]⟩ ⟨true, ["ws"]⟩ "test" =
      Except.error "Invalid path for test: ../outside" ∧
    ¬ List.IsInfix (PyPath.toStr ⟨true, ["ws"]⟩).data
      ("Invalid path for test: ../outside").data :=
  ⟨rfl, by decide⟩

/-- C8: IsWithinWorkspace returns true exactly when both paths resolve
and the resolved workspace root is an ancestor of (or equal to) the
resolved target, and returns false whenever either resolution fails; the
embedding is a total boolean function, so no exception escapes. -/
theorem is_safe_workspace_path_spec (resolve : PyPath → Option PyPath) (p w : PyPath) :
    (is_safe_workspace_path resolve p w = true ↔
      ∃ rp rw, resolve p = some rp ∧ resolve w = some rw ∧
        rp.absolute = rw.absolute ∧ rw.comps.isPrefixOf rp.comps = true) ∧
    ((resolve p = none ∨ resolve w = none) → is_safe_workspace_path resolve p w = false) := by
  constructor
  · unfold is_safe_workspace_path relativeTo
    cases hp : resolve p <;> cases hw : resolve w <;> simp [hp, hw]
  · intro h
    rcases h with h | h
    · cases hw2 : resolve w <;> simp [is_safe_workspace_path, h, hw2]
    · cases hp2 : resolve p <;> simp [is_safe_workspace_path, h, hp2]

/-- Witness for the C8 theorem: with a resolution that fails on every
path, the check answers false. -/
theorem is_safe_workspace_path_spec_witness :
    is_safe_workspace_path resolveFail ⟨true, ["ws", "x"]⟩ ⟨true, ["ws"]⟩ = false :=
  (is_safe_workspace_path_spec resolveFail ⟨true, ["ws", "x"]⟩ ⟨true, ["ws"]⟩).2 (Or.inl rfl)

/-- C9: the claim fails on the code.  On an environment where /tmp is a
symlink resolving to /private/tmp, IsDangerousTarget reports dangerous
although the resolved absolute path is on no deny-list entry, is not the
home directory, and the call is not local: the code additionally tests
the unresolved absolute path against the deny-list. -/
theorem is_dangerous_targetbase_counterexample :
    (is_dangerous_targetbase envTmpLink "/tmp" false).1 = true ∧
      resolvedTargetbase envTmpLink "/tmp" = some ⟨true, ["private", "tmp"]⟩ ∧
      systemDirs.contains (PyPath.toStr ⟨true, ["private", "tmp"]⟩) = false ∧
      (⟨true, ["private", "tmp"]⟩ : PyPath) ≠ envTmpLink.home :=
  ⟨rfl, rfl, by decide, by decide⟩

/-- C9 (amended): IsDangerousTarget reports dangerous exactly when the
resolution step fails, or the resolved path or the pre-resolution
absolute path equals a deny-list entry, or the resolved path equals the
home directory, or, when isLocal, the raw path contains a dot-dot
component or is absolute; the root path is dangerous in global mode, the
relative snapshot path is not dangerous in local mode, and every
dangerous answer carries a non-empty reason. -/
theorem is_dangerous_targetbase_spec :
    (∀ (env : FsEnv) (path : String) (il : Bool),
      ((is_dangerous_targetbase env path il).1 = true ↔
        resolvedTargetbase env path = none ∨
        (∃ r, resolvedTargetbase env path = some r ∧
          (systemDirs.contains r.toStr = true ∨
           systemDirs.contains ((env.expand path).absoluteIn env.cwd).toStr = true ∨
           r = env.home)) ∨
        (il = true ∧
          ((parsePath path).comps.contains ".." = true ∨
            (parsePath path).absolute = true)))) ∧
    (∀ (env : FsEnv) (path : String) (il : Bool),
      (is_dangerous_targetbase env path il).1 = true →
        (is_dangerous_targetbase env path il).2 ≠ "") ∧
    (is_dangerous_targetbase envPlain "/" false).1 = true ∧
    (is_dangerous_targetbase envPlain "./.snapshots" true).1 = false := by
  refine ⟨?_, ?_, rfl, rfl⟩
  · intro env path il
    unfold is_dangerous_targetbase
    cases hr : resolvedTargetbase env path with
    | none => simp [hr]
    | some r =>
        simp only [hr]
        split_ifs with h1 h2 h3 h4
        · refine iff_of_true rfl (Or.inr (Or.inl ⟨r, rfl, ?_⟩))
          rw [Bool.or_eq_true] at h1
          rcases h1 with h | h
          · exact Or.inl h
          · exact Or.inr (Or.inl h)
        · exact iff_of_true rfl (Or.inr (Or.inl ⟨r, rfl, Or.inr (Or.inr h2)⟩))
        · rw [Bool.and_eq_true] at h3
          exact iff_of_true rfl (Or.inr (Or.inr ⟨h3.1, Or.inl h3.2⟩))
        · rw [Bool.and_eq_true] at h4
          exact iff_of_true rfl (Or.inr (Or.inr ⟨h4.1, Or.inr h4.2⟩))
        · refine iff_of_false (by simp) ?_
          rintro (hnone | ⟨r2, hr2, hcase⟩ | ⟨hil, hcase⟩)
          · simp at hnone
          · injection hr2 with hh
            subst hh
            rcases hcase with h | h | h
            · apply h1
              rw [Bool.or_eq_true]
              exact Or.inl h
            · apply h1
              rw [Bool.or_eq_true]
              exact Or.inr h
            · exact h2 h
          · rcases hcase with h | h
            · apply h3
              rw [Bool.and_eq_true]
              exact ⟨hil, h⟩
            · apply h4
              rw [Bool.and_eq_true]
              exact ⟨hil, h⟩
  · intro env path il h
    unfold is_dangerous_targetbase at h ⊢
    cases hr : resolvedTargetbase env path with
    | none =>
        simp only [hr] at h ⊢
        exact str_append_ne_empty _ _ (by decide)
    | some r =>
        simp only [hr] at h ⊢
        split_ifs at h ⊢ with h1 h2 h3 h4
        · exact str_append_ne_empty _ _ (by decide)
        · refine str_append_ne_empty _ _ ?_
          rw [String.data_append]
          intro hx
          exact absurd (List.append_eq_nil.mp hx).1 (by decide)
        · decide
        · decide

/-- Witness for the amended C9 theorem: the dangerous answer on the root
path carries a non-empty reason. -/
theorem is_dangerous_targetbase_spec_witness :
    (is_dangerous_targetbase envPlain "/" false).2 ≠ "" :=
  is_dangerous_targetbase_spec.2.1 envPlain "/" false is_dangerous_targetbase_spec.2.2.1

/-- C10: Tag validates no name format: whenever the source snapshot
exists and no directory with the tag name exists, tagging succeeds for
every tag name, the destination mirrors every path of the source slot,
and when the chosen name starts with a tier prefix the resulting
directory is afterwards refused by DeleteTag like a standard slot. -/
theorem tag_no_validation (cfg : RConfig) (fs : FS) (snap tg : String)
    (h1 : fsExists fs (normComps (cfg.base ++ parseComps snap)) = true)
    (h2 : fsExists fs (normComps (cfg.base ++ parseComps tg)) = false) :
    ∃ fs2, tag cfg fs snap tg = Except.ok fs2 ∧
      (∀ f ∈ fs, (normComps (cfg.base ++ parseComps snap)).isPrefixOf f = true →
        (normComps (cfg.base ++ parseComps tg) ++
          f.drop (normComps (cfg.base ++ parseComps snap)).length) ∈ fs2) ∧
      (startsWithTier tg = true →
        ∃ m, delete_tag cfg fs2 tg = Except.error (RecErr.validation m)) := by
  refine ⟨hardLinkCopyFS fs (normComps (cfg.base ++ parseComps snap))
      (normComps (cfg.base ++ parseComps tg)), ?_, ?_, ?_⟩
  · simp [tag, h1, h2]
  · intro f hf hpre
    unfold hardLinkCopyFS
    rw [List.append_assoc]
    refine List.mem_append.mpr (Or.inr (List.mem_append.mpr (Or.inr ?_)))
    refine List.mem_filterMap.mpr ⟨f, hf, ?_⟩
    rw [hpre]
    rfl
  · intro hst
    have htp : normComps (cfg.base ++ parseComps tg) ∈
        hardLinkCopyFS fs (normComps (cfg.base ++ parseComps snap))
          (normComps (cfg.base ++ parseComps tg)) := by
      unfold hardLinkCopyFS
      rw [List.append_assoc]
      exact List.mem_append.mpr (Or.inr (List.mem_append.mpr (Or.inl (List.mem_singleton.mpr rfl))))
    have hex : fsExists (hardLinkCopyFS fs (normComps (cfg.base ++ parseComps snap))
        (normComps (cfg.base ++ parseComps tg))) (normComps (cfg.base ++ parseComps tg)) = true := by
      unfold fsExists
      rw [List.any_eq_true]
      exact ⟨normComps (cfg.base ++ parseComps tg), htp, by
        rw [ List.isPrefixOf_iff_prefix]⟩
    simp [delete_tag, hex, hst]

/-- Witness for the C10 theorem: in the base holding hour-1, tagging
hour-1 as day-9 succeeds although day-9 matches the standard tier-index
pattern. -/
theorem tag_no_validation_witness :
    (tag cfgT fsTagSrc "hour-1" "day-9").isOk = true := by
  obtain ⟨fs2, hok, -, -⟩ :=
    tag_no_validation cfgT fsTagSrc "hour-1" "day-9" (by decide) (by decide)
  rw [hok]
  rfl

/-- C1: the workspace-confinement claim is right and the code is wrong.
DeletePath computes the mirrored hour-0 path with a purely lexical
relative_to, so dot-dot components of the input survive into the deletion
target, and the deletion itself is a plain shutil.rmtree, not the
PathSafety-gated safe_rmtree used by rotation.  On the local-mode
configuration with workspace root /ws, deleting
/ws/proj/../../../../secrets removes /secrets, which is outside the
workspace root, and the call returns success instead of a validation
error.  DeleteTag likewise removes its target with plain shutil.rmtree. -/
theorem delete_path_escapes_workspace :
    delete_path cfgC1 fsC1 escapePath =
      Except.ok [["ws", ".snapshots", "hour-0"],
        ["ws", ".snapshots", "hour-0", "proj", "f.txt"]] ∧
    fsExists fsC1 ["secrets"] = true ∧
    fsExists [["ws", ".snapshots", "hour-0"],
      ["ws", ".snapshots", "hour-0", "proj", "f.txt"]] ["secrets"] = false ∧
    List.isPrefixOf ["ws"] ["secrets"] = false :=
  ⟨rfl, by decide, by decide, by decide⟩

end Snapback

